import Mathlib

/-!
# Dual light controller (`webthing_dual_light.c`)

A shallow embedding of the device state controller: the module-level variables
become one `State` record, every C function becomes a function on that record,
and every call into an external collaborator (GPIO driver, FreeRTOS timers,
subscriber gateway, NVS store, console) is appended to `State.trace` in program
order, so that the order of pin writes and announcements can be stated.

Conventions of the embedding:

* a `char *` argument is the list of the characters before the terminating NUL;
* `int`, `int8_t` and `channel_t` values are integers; the embedded functions
  never leave the range of their C type on the paths modelled here, except
  where a wrap is written out explicitly;
* the mutex `dual_light_mux` is not modelled: every function runs atomically;
* the heap is not part of the state: a write past the end of an allocated
  block is undefined behaviour and gives the function no result (`none`), as
  does every other undefined step.
-/

namespace DualLight

/-! ## C strings -/

/-- The quotation mark, `'"'` in the source. -/
def QUOTE : Char := Char.ofNat 34

/-- Embeds `strcmp`: difference of the first pair of differing characters, the
terminating NUL counting as 0. -/
def strcmp : List Char → List Char → Int
  | [], [] => 0
  | [], b :: _ => - (b.toNat : Int)
  | a :: _, [] => (a.toNat : Int)
  | a :: as, b :: bs => if a = b then strcmp as bs else (a.toNat : Int) - (b.toNat : Int)

/-- Embeds `strchr(s, c)` for `c` other than NUL: offset of the first `c` in `s`,
`none` for the NULL result. -/
def strchr : List Char → Char → Option Nat
  | [], _ => none
  | a :: as, c => if a = c then some 0 else (strchr as c).map (· + 1)

/-- Embeds `strstr(s, needle)`: offset of the first occurrence of `needle` in `s`,
`none` for the NULL result. -/
def strstr : List Char → List Char → Option Nat
  | [], needle => if needle = [] then some 0 else none
  | a :: as, needle =>
    if needle.isPrefixOf (a :: as) then some 0 else (strstr as needle).map (· + 1)

/-- Embeds `isspace` in the C locale. -/
def isspace (c : Char) : Bool :=
  c.toNat = 32 || (9 ≤ c.toNat && c.toNat ≤ 13)

/-- Embeds `isdigit`. -/
def isdigit (c : Char) : Bool :=
  48 ≤ c.toNat && c.toNat ≤ 57

/-- The digit loop of `atoi`: accumulates decimal digits until the first
character that is not a digit. -/
def atoi_digits : List Char → Int → Int
  | [], acc => acc
  | c :: cs, acc =>
    if isdigit c then atoi_digits cs (acc * 10 + ((c.toNat : Int) - 48)) else acc

/-- Embeds `atoi`: leading white space is skipped, then an optional sign, then the
digits; 0 when there is no digit. Its callers pass at most 5 characters, so
the value fits an `int`. -/
def atoi (s : List Char) : Int :=
  match s.dropWhile isspace with
  | [] => 0
  | c :: cs =>
    if c = '-' then - atoi_digits cs 0
    else if c = '+' then atoi_digits cs 0
    else atoi_digits (c :: cs) 0

/-! ## Data model -/

/-- Embeds `channel_t`: `CH_A = 0`. -/
def CH_A : Int := 0
/-- Embeds `channel_t`: `CH_B = 1`. -/
def CH_B : Int := 1
/-- Embeds `channel_t`: `CH_AB = 2`. -/
def CH_AB : Int := 2

/-- The two relay pins `GPIO_CH_A`, `GPIO_CH_B`. -/
inductive Pin where
  | GPIO_CH_A
  | GPIO_CH_B
  deriving DecidableEq, Repr

/-- The three properties of the thing that can be announced. -/
inductive Property where
  | prop_on
  | prop_channel
  | prop_daily_on_time
  deriving DecidableEq, Repr

/-- Calls into the external collaborators, in program order. -/
inductive Event where
  | gpio_set_level (pin : Pin) (level : Nat)
  | vTaskDelay (ms : Nat)
  | inform_all_subscribers_prop (p : Property)
  | complete_action (name : String)
  | xTimerCreate (period_ms : Int)
  | xTimerStart (ok : Bool)
  | xTimerDelete
  | nvs_set_i8 (data : Int)
  | nvs_commit
  | printf (msg : String)
  deriving DecidableEq, Repr

/-- Embeds `channel_tab[3][4] = {"A", "B", "A+B"}`. -/
def channel_tab : List (List Char) := [['A'], ['B'], ['A', '+', 'B']]

/-- The list `prop_channel -> enum_list` as `init_dual_light` links it:
`enum_ch_A -> enum_ch_B -> enum_ch_AB -> NULL`, holding `channel_tab[0..2]`. -/
def enum_list : List (List Char) := channel_tab

/-- The module-level variables, the two relay pin levels, the content of the
NVS key `"curr_channel"` and the trace of external calls. -/
structure State where
  init_data_sent : Bool
  timer_is_running : Bool
  current_channel : Int
  prev_current_channel : Int
  device_is_on : Bool
  prop_channel_value : List Char
  daily_on_time_min : Int
  daily_on_time_sec : Int
  on_time_last_update : Int
  timer : Option Int
  level_A : Bool
  level_B : Bool
  nvs_curr_channel : Option Int
  trace : List Event
  deriving DecidableEq, Repr

/-- Appends one external call to the trace. -/
def State.emit (st : State) (e : Event) : State :=
  { st with trace := st.trace ++ [e] }

/-- Embeds `gpio_set_level(pin, level)`: the call is recorded and the pin takes the
level. -/
def gpio_set_level (st : State) (pin : Pin) (level : Nat) : State :=
  match pin with
  | Pin.GPIO_CH_A => { st with level_A := decide (level ≠ 0) }.emit (Event.gpio_set_level pin level)
  | Pin.GPIO_CH_B => { st with level_B := decide (level ≠ 0) }.emit (Event.gpio_set_level pin level)

/-- Embeds `vTaskDelay(20 / portTICK_PERIOD_MS)`. -/
def vTaskDelay (st : State) (ms : Nat) : State :=
  st.emit (Event.vTaskDelay ms)

/-- Embeds `inform_all_subscribers_prop(p)`. -/
def inform_all_subscribers_prop (st : State) (p : Property) : State :=
  st.emit (Event.inform_all_subscribers_prop p)

/-- The `switch (current_channel)` that energizes the pins of the current
channel (in `set_on_off` and again in `timer_run`). -/
def switch_on_channel (st : State) : State :=
  if st.current_channel = CH_A then
    gpio_set_level st Pin.GPIO_CH_A 1
  else if st.current_channel = CH_B then
    gpio_set_level st Pin.GPIO_CH_B 1
  else
    gpio_set_level (vTaskDelay (gpio_set_level st Pin.GPIO_CH_A 1) 20) Pin.GPIO_CH_B 1

/-- The sequence `gpio_set_level(GPIO_CH_A, 0); vTaskDelay; gpio_set_level(GPIO_CH_B, 0)`
(in `set_on_off` and again in `timer_fun`). -/
def switch_off_both (st : State) : State :=
  gpio_set_level (vTaskDelay (gpio_set_level st Pin.GPIO_CH_A 0) 20) Pin.GPIO_CH_B 0

/-! ## `set_on_off` -/

/-- Embeds `int8_t set_on_off(char *new_value_str)`. -/
def set_on_off (st : State) (new_value_str : List Char) : Int × State :=
  if strcmp new_value_str ['t', 'r', 'u', 'e'] = 0 then
    (1, switch_on_channel { st with device_is_on := true })
  else
    (1, switch_off_both { st with device_is_on := false })

/-! ## Timer action -/

/-- Embeds `void timer_fun(TimerHandle_t xTimer)`: the expiry callback. -/
def timer_fun (st : State) : State :=
  let st1 := st.emit (Event.complete_action "timer")
  let state_changed := st1.device_is_on
  let st2 := if st1.device_is_on = true then
      switch_off_both { st1 with device_is_on := false }
    else st1
  let st3 := st2.emit Event.xTimerDelete
  let st4 := { st3 with timer_is_running := false }
  if state_changed = true then inform_all_subscribers_prop st4 Property.prop_on else st4

/-- The text `timer_run` hands to `atoi`: `none` on each of the three
`goto inputs_error` of the extraction (no `"duration"`, no `':'` after it,
more than 5 characters after the `':'`). -/
def timer_run_buff (inputs : List Char) : Option (List Char) :=
  match strstr inputs ['d', 'u', 'r', 'a', 't', 'i', 'o', 'n'] with
  | none => none
  | some k =>
    match strchr (inputs.drop k) ':' with
    | none => none
    | some j =>
      let p1 := k + j
      let len : Int := (inputs.length : Int) - ((p1 : Int) + 1)
      if len > 5 then none
      else some ((inputs.drop (p1 + 1)).take len.toNat)

/-- The validated duration of a payload: `none` on every `goto inputs_error`
after the busy check. -/
def timer_run_duration (inputs : List Char) : Option Int :=
  match timer_run_buff inputs with
  | none => none
  | some buff =>
    let duration := atoi buff
    if duration > 600 ∨ duration = 0 then none else some duration

/-- The label `inputs_error:` of `timer_run`. -/
def timer_run_inputs_error (st : State) : Int × State :=
  (-1, st.emit (Event.printf "timer ERROR\n"))

/-- Embeds `int8_t timer_run(char *inputs)`. `start_ok` is the outcome of the
scheduler call `xTimerStart(timer, 5)` (`false` for `pdFAIL`); `xTimerCreate`
is taken to return a handle, kept in `timer` with the period in milliseconds
that was passed to `pdMS_TO_TICKS`. -/
def timer_run (st : State) (inputs : List Char) (start_ok : Bool) : Int × State :=
  if st.timer_is_running = true then timer_run_inputs_error st
  else
    match timer_run_duration inputs with
    | none => timer_run_inputs_error st
    | some duration =>
      let switched_on := !st.device_is_on
      let st1 := if st.device_is_on = false then
          switch_on_channel { st with device_is_on := true }
        else st
      let st2 := { st1 with timer := some (duration * 60 * 1000) }.emit
        (Event.xTimerCreate (duration * 60 * 1000))
      let st3 := st2.emit (Event.xTimerStart start_ok)
      if start_ok = false then
        (0, st3.emit (Event.printf "timer failed\n"))
      else
        let st4 := { st3 with timer_is_running := true }
        if switched_on = true then
          (0, inform_all_subscribers_prop st4 Property.prop_on)
        else (0, st4)

/-! ## Persistence -/

/-- Conversion to `int8_t`, as in the cast `(int8_t)current_channel`. -/
def wrap8 (x : Int) : Int := (x + 128) % 256 - 128

/-- Embeds `void write_nvs_data(int8_t data)`. `nvs_open_ok` is the outcome of
`nvs_open("storage", NVS_READWRITE, ..)`; when the store opens, `nvs_set_i8`
stores `data` under `"curr_channel"` and `nvs_commit` follows. -/
def write_nvs_data (st : State) (data : Int) (nvs_open_ok : Bool) : State :=
  if nvs_open_ok = false then
    st.emit (Event.printf "Error (%s) opening NVS handle!\n")
  else
    ({ st with nvs_curr_channel := some data }.emit (Event.nvs_set_i8 data)).emit Event.nvs_commit

/-- The value of a non-negative integer object after its lowest byte is
overwritten with the `int8_t` value `v`, as the store through the cast
`(int8_t *)&current_channel` does on the little-endian target. -/
def store_low_byte (old v : Int) : Int := old - old % 256 + v % 256

/-- Embeds `void read_nvs_data(void)`. `nvs_open_ok` is the outcome of
`nvs_open("storage", NVS_READONLY, ..)`; `nvs_get_i8` succeeds when the store
holds the key `"curr_channel"` and then writes the stored value through
`(int8_t *)&current_channel`; otherwise `current_channel` keeps the default. -/
def read_nvs_data (st : State) (nvs_open_ok : Bool) : State :=
  let st1 := { st with current_channel := CH_AB }.emit (Event.printf "Reading NVS data... ")
  if nvs_open_ok = false then
    st1.emit (Event.printf "Error (%s) opening NVS handle!\n")
  else
    match st1.nvs_curr_channel with
    | none => st1.emit (Event.printf "current channel not found in NVS\n")
    | some v => { st1 with current_channel := store_low_byte st1.current_channel v }

/-! ## `set_channel` -/

/-- The text `set_channel` compares with the enumerated strings (lines
282-291); `buff` is a block of `strlen(new_value_str)` bytes. With a leading
quotation mark the block is zeroed, `ptr = strchr(new_value_str + 1, '"')` and
`len = ptr - new_value_str - 1` characters after the mark are copied, fewer
than the block holds; when there is no second mark `ptr` is NULL, `len` has
no defined value and `memcpy` has no defined effect: `none`. Without a
leading quotation mark `strcpy` writes the `strlen + 1` bytes of the argument
into the block of `strlen` bytes, one byte past its end: `none`. -/
def set_channel_buff (new_value_str : List Char) : Option (List Char) :=
  match new_value_str with
  | [] => none
  | c :: rest =>
    if c = QUOTE then
      match strchr rest QUOTE with
      | none => none
      | some j => some (rest.take j)
    else none

/-- The `while (enum_item != NULL)` loop of `set_channel`: walks the list
from item `i` on and stops at the first item equal to `buff`, giving its
index and its string. -/
def set_channel_find (buff : List Char) : List (List Char) → Int → Option (Int × List Char)
  | [], _ => none
  | item :: next, i =>
    if strcmp buff item = 0 then some (i, item) else set_channel_find buff next (i + 1)

/-- The selection part of `set_channel` (lines 294-315): the result
`channel_is_changed` and the state after it. -/
def set_channel_select (st : State) (buff : List Char) : Int × State :=
  match set_channel_find buff enum_list 0 with
  | none => (-1, st)
  | some (i, item) =>
    let st1 := { st with prop_channel_value := item }
    if i ≠ st1.current_channel then
      (1, { st1 with prev_current_channel := st1.current_channel, current_channel := i })
    else (0, st1)

/-- The `switch (prev_current_channel)` of `set_channel` (lines 320-351). -/
def set_channel_switch (st : State) : State :=
  if st.prev_current_channel = CH_A then
    if st.current_channel = CH_B then
      gpio_set_level (vTaskDelay (gpio_set_level st Pin.GPIO_CH_A 0) 20) Pin.GPIO_CH_B 1
    else
      gpio_set_level st Pin.GPIO_CH_B 1
  else if st.prev_current_channel = CH_B then
    if st.current_channel = CH_A then
      gpio_set_level (vTaskDelay (gpio_set_level st Pin.GPIO_CH_B 0) 20) Pin.GPIO_CH_A 1
    else
      gpio_set_level st Pin.GPIO_CH_A 1
  else
    if st.current_channel = CH_A then
      gpio_set_level st Pin.GPIO_CH_B 0
    else
      gpio_set_level st Pin.GPIO_CH_A 0

/-- Embeds `int8_t set_channel(char *new_value_str)`. `nvs_open_ok` is the outcome
of `nvs_open` inside `write_nvs_data`. The result is `none` when the function
has no defined behaviour (see `set_channel_buff`). -/
def set_channel (st : State) (new_value_str : List Char) (nvs_open_ok : Bool) :
    Option (Int × State) :=
  match set_channel_buff new_value_str with
  | none => none
  | some buff =>
    let r := set_channel_select st buff
    let channel_is_changed := r.1
    let st1 := r.2
    let st2 := if channel_is_changed = 1 ∧ st1.device_is_on = true then
        set_channel_switch st1
      else st1
    let st3 := if channel_is_changed = 1 then
        write_nvs_data st2 (wrap8 st2.current_channel) nvs_open_ok
      else st2
    some (channel_is_changed, st3)

/-! ## Daily on-time -/

/-- Conversion to a 32-bit `int`. -/
def wrap32 (x : Int) : Int := (x + 2147483648) % 4294967296 - 2147483648

/-- Embeds `void update_on_time(bool reset)`. `current_time` is what `time()` gives
and `tm_year` the year field `localtime_r` decomposes it to (years since
1900). `delta_t` and `daily_on_time_sec` are 32-bit `int`s; `/` on `int`
truncates toward zero. -/
def update_on_time (st : State) (reset : Bool) (current_time : Int) (tm_year : Int) : State :=
  let prev_time := st.on_time_last_update
  if tm_year > 2018 - 1900 then
    let prev_minutes : Int := if st.device_is_on = true then st.daily_on_time_min else 0
    let delta_t := wrap32 (current_time - prev_time)
    let st1 := if st.device_is_on = true ∧ delta_t > 0 then
        { st with daily_on_time_sec := wrap32 (st.daily_on_time_sec + delta_t),
                  daily_on_time_min := Int.tdiv (wrap32 (st.daily_on_time_sec + delta_t)) 60 }
      else st
    let new_minutes : Int := if st.device_is_on = true then st1.daily_on_time_min else 0
    let st2 := { st1 with on_time_last_update := current_time }
    let send_data := decide (new_minutes ≠ prev_minutes) || reset
    let st3 := if reset = true then
        { st2 with daily_on_time_sec := 0, daily_on_time_min := 0 }
      else st2
    if send_data = true then inform_all_subscribers_prop st3 Property.prop_daily_on_time
    else st3
  else st

/-- Embeds `void daily_on_time_reset(void)`. -/
def daily_on_time_reset (st : State) (current_time : Int) (tm_year : Int) : State :=
  update_on_time st true current_time tm_year

/-! ## Initial state -/

/-- The state `init_dual_light` leaves, for the value `ch` that
`read_nvs_data` gave `current_channel` and the store content `nvs`: the
static initialisers of the module, `prev_current_channel = current_channel`,
both pins low after `init_gpio`, `prop_channel -> value = channel_tab[ch]`. -/
def init_state (ch : Int) (nvs : Option Int) : State :=
  { init_data_sent := false
    timer_is_running := false
    current_channel := ch
    prev_current_channel := ch
    device_is_on := false
    prop_channel_value := channel_tab.getD ch.toNat []
    daily_on_time_min := 0
    daily_on_time_sec := 0
    on_time_last_update := 0
    timer := none
    level_A := false
    level_B := false
    nvs_curr_channel := nvs
    trace := [] }

/-- The pin writes among a list of external calls, in order. -/
def pin_writes : List Event → List (Pin × Nat)
  | [] => []
  | Event.gpio_set_level p l :: es => (p, l) :: pin_writes es
  | _ :: es => pin_writes es

/-- The announcements of one property among a list of external calls. -/
def announcements (p : Property) (es : List Event) : Nat :=
  es.count (Event.inform_all_subscribers_prop p)

/-- C string of a Lean string literal. -/
def cstr (s : String) : List Char := s.toList

/-! ## Specification-side vocabulary -/

/-- The three values of `channel_t`. -/
inductive Channel where
  | A
  | B
  | AB
  deriving DecidableEq, Repr

/-- The integer value of a channel: `CH_A`, `CH_B`, `CH_AB`. -/
def Channel.val : Channel → Int
  | Channel.A => CH_A
  | Channel.B => CH_B
  | Channel.AB => CH_AB

/-- The display string of a channel, its row of `channel_tab`. -/
def Channel.display (c : Channel) : List Char :=
  channel_tab.getD c.val.toNat []

/-- Pin A is required by channel A and by channel AB. -/
def Channel.needs_A : Channel → Bool
  | Channel.A => true
  | Channel.B => false
  | Channel.AB => true

/-- Pin B is required by channel B and by channel AB. -/
def Channel.needs_B : Channel → Bool
  | Channel.A => false
  | Channel.B => true
  | Channel.AB => true

/-- The transition table of the specification (section 4.2), as the list of
pin writes of each ordered pair (old, new). -/
def spec_transition_table : Channel → Channel → List (Pin × Nat)
  | Channel.A, Channel.B => [(Pin.GPIO_CH_A, 0), (Pin.GPIO_CH_B, 1)]
  | Channel.B, Channel.A => [(Pin.GPIO_CH_B, 0), (Pin.GPIO_CH_A, 1)]
  | Channel.A, Channel.AB => [(Pin.GPIO_CH_B, 1)]
  | Channel.B, Channel.AB => [(Pin.GPIO_CH_A, 1)]
  | Channel.AB, Channel.A => [(Pin.GPIO_CH_B, 0)]
  | Channel.AB, Channel.B => [(Pin.GPIO_CH_A, 0)]
  | Channel.A, Channel.A => []
  | Channel.B, Channel.B => []
  | Channel.AB, Channel.AB => []

/-- The channel variable holds one of the three enumerated values. -/
def channel_valid (st : State) : Prop :=
  st.current_channel = CH_A ∨ st.current_channel = CH_B ∨ st.current_channel = CH_AB

/-- An initial state: device off, both pins low, channel one of A, B, AB. -/
def Initial (st : State) : Prop :=
  st.device_is_on = false ∧ st.level_A = false ∧ st.level_B = false ∧ channel_valid st

/-- One call of an operation of the controller, taken to its end. -/
inductive Step : State → State → Prop where
  | set_on_off (st : State) (s : List Char) : Step st (set_on_off st s).2
  | set_channel (st : State) (s : List Char) (ok : Bool) (r : Int) (st' : State) :
      set_channel st s ok = some (r, st') → Step st st'
  | timer_run (st : State) (s : List Char) (ok : Bool) : Step st (timer_run st s ok).2
  | timer_fun (st : State) : Step st (timer_fun st)
  | update_on_time (st : State) (reset : Bool) (t y : Int) :
      Step st (update_on_time st reset t y)

/-- The states reachable from an initial state by calls of the operations. -/
inductive Reachable : State → Prop where
  | init (st : State) : Initial st → Reachable st
  | step (st st' : State) : Reachable st → Step st st' → Reachable st'

/-- The external calls made between state `st` and a later state `st'`. -/
def new_events (st st' : State) : List Event :=
  st'.trace.drop st.trace.length

/-- A well-formed C string: no character of the list is NUL. -/
def is_c_string (s : List Char) : Prop := ∀ c ∈ s, c.toNat ≠ 0

instance (s : List Char) : Decidable (is_c_string s) := by
  unfold is_c_string
  infer_instance

/-- The argument of `set_channel` after removing a wrapping quote character,
as the specification words it: when the text begins and ends with a quotation
mark, the text between the two; otherwise the text itself. -/
def spec_unwrap (s : List Char) : List Char :=
  match s with
  | [] => []
  | c :: rest =>
    if c = QUOTE ∧ rest.getLast? = some QUOTE then rest.dropLast else c :: rest

/-- Decimal rendering of an integer: its digits, after a minus sign when it
is negative. -/
def decimal (d : Int) : List Char :=
  match d with
  | Int.ofNat n => Nat.toDigits 10 n
  | Int.negSucc n => '-' :: Nat.toDigits 10 (n + 1)

/-- The action payload `"duration":d` for an integer `d`. -/
def duration_payload (d : Int) : List Char :=
  [QUOTE, 'd', 'u', 'r', 'a', 't', 'i', 'o', 'n', QUOTE, ':'] ++ decimal d

/-- A restart: every module-level variable is back at its static initial
value and both pins are low; only the content of the store survives. -/
def restart (st : State) : State :=
  { init_data_sent := false
    timer_is_running := false
    current_channel := 0
    prev_current_channel := 0
    device_is_on := false
    prop_channel_value := []
    daily_on_time_min := 0
    daily_on_time_sec := 0
    on_time_last_update := 0
    timer := none
    level_A := false
    level_B := false
    nvs_curr_channel := st.nvs_curr_channel
    trace := [] }

/-- Successive calls `update_on_time(false)`, one for each tick: a tick is the
pair of the timestamp and the year field it decomposes to. -/
def run_ticks (st : State) : List (Int × Int) → State
  | [] => st
  | tick :: rest => run_ticks (update_on_time st false tick.1 tick.2) rest

/-- The timestamp of the last tick of a list, `t0` when the list is empty. -/
def last_time (t0 : Int) : List (Int × Int) → Int
  | [] => t0
  | tick :: rest => last_time tick.1 rest

/-- The timestamps of the ticks do not decrease, starting from `t0`. -/
def nondecreasing (t0 : Int) : List (Int × Int) → Prop
  | [] => True
  | tick :: rest => t0 ≤ tick.1 ∧ nondecreasing tick.1 rest

/-- The addition `daily_on_time_sec += delta_t` of a tick, when the tick
performs it, stays within the range of `int`; beyond it C leaves the addition
undefined. -/
def tick_in_range (st : State) (current_time tm_year : Int) : Prop :=
  tm_year > 2018 - 1900 → st.device_is_on = true →
    0 < wrap32 (current_time - st.on_time_last_update) →
    st.daily_on_time_sec + wrap32 (current_time - st.on_time_last_update) < 2147483648

/-- The states reached from a state with both daily counters at zero by calls
of the operations, every tick staying within the range of `int`. -/
inductive DailyReachable : State → Prop where
  | init (st : State) :
      st.daily_on_time_sec = 0 → st.daily_on_time_min = 0 → DailyReachable st
  | update_on_time (st : State) (reset : Bool) (t y : Int) :
      DailyReachable st → tick_in_range st t y → DailyReachable (update_on_time st reset t y)
  | daily_on_time_reset (st : State) (t y : Int) :
      DailyReachable st → tick_in_range st t y → DailyReachable (daily_on_time_reset st t y)
  | set_on_off (st : State) (s : List Char) :
      DailyReachable st → DailyReachable (set_on_off st s).2
  | set_channel (st : State) (s : List Char) (ok : Bool) (r : Int) (st' : State) :
      DailyReachable st → set_channel st s ok = some (r, st') → DailyReachable st'
  | timer_run (st : State) (s : List Char) (ok : Bool) :
      DailyReachable st → DailyReachable (timer_run st s ok).2
  | timer_fun (st : State) : DailyReachable st → DailyReachable (timer_fun st)

/-- The invariant of the daily counters: the seconds are not negative and the
minutes are the floor of the seconds divided by 60. -/
def daily_inv (st : State) : Prop :=
  0 ≤ st.daily_on_time_sec ∧ st.daily_on_time_min = Int.fdiv st.daily_on_time_sec 60

/-! ## Theorems -/

/-- The transition table on the quoted path: with the device on, the channel
`old` current and the pins energized as `old` requires, `set_channel` called
with the display string of `new` wrapped in quotation marks performs exactly
the pin writes of the transition table, in its order, returns 0 when
`old = new` and 1 otherwise, and leaves the pins energized as `new`
requires. -/
theorem set_channel_transition_table_quoted (st : State) (old new : Channel) (ok : Bool)
    (hon : st.device_is_on = true) (hch : st.current_channel = old.val)
    (hA : st.level_A = old.needs_A) (hB : st.level_B = old.needs_B) :
    ∃ st' evs, set_channel st (QUOTE :: (new.display ++ [QUOTE])) ok =
        some (if old = new then 0 else 1, st') ∧
      st'.trace = st.trace ++ evs ∧
      pin_writes evs = spec_transition_table old new ∧
      st'.current_channel = new.val ∧
      st'.level_A = new.needs_A ∧ st'.level_B = new.needs_B := by
  cases old <;> cases new <;> cases ok <;>
    simp [set_channel, set_channel_buff, Channel.display, Channel.val, channel_tab, CH_A, CH_B, CH_AB,
      QUOTE, strchr, set_channel_select, set_channel_find, enum_list, strcmp, hch, hon,
      set_channel_switch, gpio_set_level, vTaskDelay, State.emit, write_nvs_data, wrap8,
      spec_transition_table, Channel.needs_A, Channel.needs_B, hA, hB, pin_writes]

/-- An argument without a leading quotation mark leaves `set_channel` without
a defined result: the copy overruns the block by one byte. -/
theorem set_channel_bare (st : State) (c : Char) (rest : List Char) (ok : Bool)
    (h : c ≠ QUOTE) : set_channel st (c :: rest) ok = none := by
  simp [set_channel, set_channel_buff, h]

/-- C1: called with the display string `B` itself, with the device on, channel
A current and pin A high, `set_channel` has no defined result: `buff` is a
block of `strlen = 1` byte and `strcpy` writes 2 bytes into it. The same
holds for the display strings `A` and `A+B` and for an argument of 40
characters, which fills its block exactly. No pin is written by a defined
step and no value is returned. -/
theorem set_channel_bare_display_string :
    set_channel { init_state CH_A none with device_is_on := true, level_A := true }
      (cstr "B") true = none ∧
    set_channel { init_state CH_B none with device_is_on := true, level_B := true }
      (cstr "A") true = none ∧
    set_channel { init_state CH_A none with device_is_on := true, level_A := true }
      (cstr "A+B") true = none ∧
    set_channel { init_state CH_A none with device_is_on := true, level_A := true }
      (List.replicate 40 'x') true = none := by
  decide

/-! ### The pin invariant -/

/-- C6: while a timer is running, `timer_run` returns -1 for every payload. -/
theorem timer_run_busy (st : State) (inputs : List Char) (ok : Bool)
    (h : st.timer_is_running = true) : (timer_run st inputs ok).1 = -1 := by
  simp [timer_run, h, timer_run_inputs_error]

/-- A concrete instance of C6: the valid duration 600 is rejected while a
timer is running. -/
theorem timer_run_busy_witness :
    (timer_run { init_state CH_AB none with timer_is_running := true }
      (cstr "\"duration\":600") true).1 = -1 :=
  timer_run_busy _ _ _ rfl

/-- C7: whenever `timer_run` returns -1, every variable, both pin levels, the
timer handle and the store are as before the call; the only external call
made is the console line `timer ERROR`, so no timer is created and nothing
is announced. -/
theorem timer_run_error_no_mutation (st : State) (inputs : List Char) (ok : Bool)
    (h : (timer_run st inputs ok).1 = -1) :
    (timer_run st inputs ok).2 = { st with trace := st.trace ++ [Event.printf "timer ERROR\n"] } := by
  unfold timer_run at h ⊢
  split
  · rfl
  · split
    · rfl
    · rename_i hd
      simp only [hd] at h
      split_ifs at h

/-- A concrete instance of C7: the duration 601 is rejected. -/
theorem timer_run_error_no_mutation_witness :
    (timer_run (init_state CH_AB none) (cstr "\"duration\":601") true).2
      = { init_state CH_AB none with trace := [] ++ [Event.printf "timer ERROR\n"] } :=
  timer_run_error_no_mutation _ _ _ (by decide)

/-- Energizing the pins of the current channel touches the two pin levels
and the trace only. -/
theorem switch_on_channel_frame (st : State) :
    (switch_on_channel st).timer_is_running = st.timer_is_running ∧
    (switch_on_channel st).device_is_on = st.device_is_on ∧
    (switch_on_channel st).current_channel = st.current_channel ∧
    (switch_on_channel st).prev_current_channel = st.prev_current_channel ∧
    (switch_on_channel st).timer = st.timer := by
  unfold switch_on_channel
  split_ifs <;> simp [gpio_set_level, vTaskDelay, State.emit]

/-- The pin writes of energizing the current channel. -/
theorem switch_on_channel_trace (st : State) :
    (switch_on_channel st).trace = st.trace ++
      (if st.current_channel = CH_A then [Event.gpio_set_level Pin.GPIO_CH_A 1]
       else if st.current_channel = CH_B then [Event.gpio_set_level Pin.GPIO_CH_B 1]
       else [Event.gpio_set_level Pin.GPIO_CH_A 1, Event.vTaskDelay 20,
             Event.gpio_set_level Pin.GPIO_CH_B 1]) := by
  unfold switch_on_channel
  split_ifs <;> simp [gpio_set_level, vTaskDelay, State.emit]

/-- The pin levels after energizing the current channel. -/
theorem switch_on_channel_levels (st : State) :
    (switch_on_channel st).level_A = (if st.current_channel = CH_B then st.level_A else true) ∧
    (switch_on_channel st).level_B = (if st.current_channel = CH_A then st.level_B else true) := by
  unfold switch_on_channel
  split_ifs <;> simp_all [gpio_set_level, vTaskDelay, State.emit, CH_A, CH_B]

/-- The success path of `timer_run`, written out: the state it leaves when
the payload carries the accepted duration `d` and no timer is running. -/
theorem timer_run_accepted (st : State) (inputs : List Char) (ok : Bool) (d : Int)
    (hrun : st.timer_is_running = false) (hd : timer_run_duration inputs = some d) :
    timer_run st inputs ok =
      (0, { (if st.device_is_on = false then switch_on_channel { st with device_is_on := true }
              else st) with
            timer := some (d * 60 * 1000)
            timer_is_running := ok
            trace := (if st.device_is_on = false then
                  switch_on_channel { st with device_is_on := true } else st).trace ++
                [Event.xTimerCreate (d * 60 * 1000), Event.xTimerStart ok] ++
                (if ok = false then [Event.printf "timer failed\n"]
                 else if st.device_is_on = false then
                   [Event.inform_all_subscribers_prop Property.prop_on] else []) }) := by
  unfold timer_run
  simp only [hrun, hd, Bool.false_eq_true, if_false]
  cases ok <;> cases hon : st.device_is_on <;>
    simp [State.emit, inform_all_subscribers_prop, hrun, (switch_on_channel_frame _).1]

/-- Whenever `timer_run` returns 0 no timer was running and the payload
carries an accepted duration. -/
theorem timer_run_zero (st : State) (inputs : List Char) (ok : Bool)
    (h : (timer_run st inputs ok).1 = 0) :
    st.timer_is_running = false ∧ ∃ d, timer_run_duration inputs = some d := by
  unfold timer_run timer_run_inputs_error at h
  cases hrun : st.timer_is_running
  · cases hd : timer_run_duration inputs with
    | none => simp [hrun, hd] at h
    | some d => exact ⟨rfl, d, rfl⟩
  · simp [hrun] at h

/-- The external calls of an accepted `timer_run`, in order. -/
theorem timer_run_new_events (st : State) (inputs : List Char) (ok : Bool) (d : Int)
    (hrun : st.timer_is_running = false) (hd : timer_run_duration inputs = some d) :
    new_events st (timer_run st inputs ok).2 =
      (if st.device_is_on = false then
        (if st.current_channel = CH_A then [Event.gpio_set_level Pin.GPIO_CH_A 1]
         else if st.current_channel = CH_B then [Event.gpio_set_level Pin.GPIO_CH_B 1]
         else [Event.gpio_set_level Pin.GPIO_CH_A 1, Event.vTaskDelay 20,
               Event.gpio_set_level Pin.GPIO_CH_B 1])
       else []) ++
      [Event.xTimerCreate (d * 60 * 1000), Event.xTimerStart ok] ++
      (if ok = false then [Event.printf "timer failed\n"]
       else if st.device_is_on = false then
         [Event.inform_all_subscribers_prop Property.prop_on] else []) := by
  rw [timer_run_accepted st inputs ok d hrun hd]
  unfold new_events
  cases hon : st.device_is_on
  · simp only [if_true, switch_on_channel_trace, List.append_assoc, List.drop_left]
  · simp only [Bool.true_eq_false, if_false, List.append_assoc, List.drop_left, List.nil_append]

/-- C8, counterexample: on the payload `"duration":1`, when the scheduler's
`xTimerStart` fails, `timer_run` returns 0 and `timer_is_running` is false
afterwards. -/
theorem timer_run_start_failure :
    (timer_run (init_state CH_AB none) (cstr "\"duration\":1") false).1 = 0 ∧
    (timer_run (init_state CH_AB none) (cstr "\"duration\":1") false).2.timer_is_running
      = false := by
  decide

/-- C8, amended: whenever `timer_run` returns 0 on a payload whose duration
`d` is positive (1 to 600 minutes), a timer has been created for
`d * 60 * 1000` milliseconds, the argument handed to `pdMS_TO_TICKS`, that is
for `d * 60` seconds (a positive period of at most 36000000 ms), and the
scheduler's start call has been made on it;
when that call succeeded `timer_is_running` is true afterwards, and when it
failed `timer_is_running` is false and the line `timer failed` has been
logged, 0 being returned all the same. -/
theorem timer_run_success_timer (st : State) (inputs : List Char) (ok : Bool) (d : Int)
    (h : (timer_run st inputs ok).1 = 0) (hd : timer_run_duration inputs = some d)
    (hpos : 0 < d) :
    (0 < d * 60 * 1000 ∧ d * 60 * 1000 ≤ 36000000) ∧
    (timer_run st inputs ok).2.timer = some (d * 60 * 1000) ∧
    Event.xTimerCreate (d * 60 * 1000) ∈ new_events st (timer_run st inputs ok).2 ∧
    Event.xTimerStart ok ∈ new_events st (timer_run st inputs ok).2 ∧
    (ok = true → (timer_run st inputs ok).2.timer_is_running = true) ∧
    (ok = false → (timer_run st inputs ok).2.timer_is_running = false ∧
      Event.printf "timer failed\n" ∈ new_events st (timer_run st inputs ok).2) := by
  obtain ⟨hrun, -⟩ := timer_run_zero st inputs ok h
  have hle : d ≤ 600 := by
    unfold timer_run_duration at hd
    cases hbuff : timer_run_buff inputs with
    | none => simp [hbuff] at hd
    | some buff =>
      simp only [hbuff] at hd
      split_ifs at hd with hbad
      simp only [Option.some.injEq] at hd
      rw [← hd]
      omega
  refine ⟨⟨by omega, by omega⟩, ?_, ?_, ?_, ?_, ?_⟩
  · rw [timer_run_accepted st inputs ok d hrun hd]
  · rw [timer_run_new_events st inputs ok d hrun hd]
    simp
  · rw [timer_run_new_events st inputs ok d hrun hd]
    simp
  · intro hok
    rw [timer_run_accepted st inputs ok d hrun hd]
    exact hok
  · intro hok
    rw [timer_run_new_events st inputs ok d hrun hd, timer_run_accepted st inputs ok d hrun hd]
    simp [hok]

/-- Concrete instances of the amended C8: the payload `"duration":600` with a
successful start and with a failed start. -/
theorem timer_run_success_timer_witness :
    ((timer_run (init_state CH_AB none) (cstr "\"duration\":600") true).2.timer
        = some (600 * 60 * 1000) ∧
      (timer_run (init_state CH_AB none) (cstr "\"duration\":600") true).2.timer_is_running
        = true) ∧
    ((timer_run (init_state CH_AB none) (cstr "\"duration\":600") false).1 = 0 ∧
      (timer_run (init_state CH_AB none) (cstr "\"duration\":600") false).2.timer_is_running
        = false ∧
      Event.printf "timer failed\n" ∈ new_events (init_state CH_AB none)
        (timer_run (init_state CH_AB none) (cstr "\"duration\":600") false).2) :=
  have h1 := timer_run_success_timer (init_state CH_AB none) (cstr "\"duration\":600") true 600
    (by decide) (by decide) (by decide)
  have h2 := timer_run_success_timer (init_state CH_AB none) (cstr "\"duration\":600") false 600
    (by decide) (by decide) (by decide)
  ⟨⟨h1.2.1, h1.2.2.2.2.1 rfl⟩, ⟨by decide, (h2.2.2.2.2.2 rfl).1, (h2.2.2.2.2.2 rfl).2⟩⟩

/-- C9: when `timer_run` accepts a payload and the timer starts, then, if the
device was off, it is on afterwards, the pin writes are those that energize
the current channel (A for channel A, B for channel B, A then B for AB), the
pins the channel requires are high, and the power property is announced
exactly once; if the device was already on, no pin is written, no pin level
changes and the power property is not announced. -/
theorem timer_run_forces_on (st : State) (inputs : List Char)
    (h : (timer_run st inputs true).1 = 0) :
    (st.device_is_on = false →
      (timer_run st inputs true).2.device_is_on = true ∧
      pin_writes (new_events st (timer_run st inputs true).2) =
        (if st.current_channel = CH_A then [(Pin.GPIO_CH_A, 1)]
         else if st.current_channel = CH_B then [(Pin.GPIO_CH_B, 1)]
         else [(Pin.GPIO_CH_A, 1), (Pin.GPIO_CH_B, 1)]) ∧
      (st.current_channel = CH_A ∨ st.current_channel = CH_AB →
        (timer_run st inputs true).2.level_A = true) ∧
      (st.current_channel = CH_B ∨ st.current_channel = CH_AB →
        (timer_run st inputs true).2.level_B = true) ∧
      announcements Property.prop_on (new_events st (timer_run st inputs true).2) = 1) ∧
    (st.device_is_on = true →
      (timer_run st inputs true).2.device_is_on = true ∧
      pin_writes (new_events st (timer_run st inputs true).2) = [] ∧
      (timer_run st inputs true).2.level_A = st.level_A ∧
      (timer_run st inputs true).2.level_B = st.level_B ∧
      announcements Property.prop_on (new_events st (timer_run st inputs true).2) = 0) := by
  obtain ⟨hrun, d, hd⟩ := timer_run_zero st inputs true h
  rw [timer_run_new_events st inputs true d hrun hd, timer_run_accepted st inputs true d hrun hd]
  constructor
  · intro hoff
    simp only [hoff, if_true, Bool.true_eq_false, if_false]
    refine ⟨(switch_on_channel_frame _).2.1, ?_, ?_, ?_, ?_⟩
    · split_ifs <;> simp [pin_writes]
    · rintro (hc | hc) <;> simp [(switch_on_channel_levels _).1, hc, CH_A, CH_B, CH_AB]
    · rintro (hc | hc) <;> simp [(switch_on_channel_levels _).2, hc, CH_A, CH_B, CH_AB]
    · split_ifs <;> simp [announcements]
  · intro hon
    simp [hon, pin_writes, announcements]

/-- A concrete instance of C9: the timer is started on a device that is off,
with channel AB. -/
theorem timer_run_forces_on_witness :
    (timer_run (init_state CH_AB none) (cstr "\"duration\":10") true).1 = 0 ∧
    (timer_run (init_state CH_AB none) (cstr "\"duration\":10") true).2.device_is_on = true ∧
    pin_writes (new_events (init_state CH_AB none)
      (timer_run (init_state CH_AB none) (cstr "\"duration\":10") true).2)
        = [(Pin.GPIO_CH_A, 1), (Pin.GPIO_CH_B, 1)] ∧
    announcements Property.prop_on (new_events (init_state CH_AB none)
      (timer_run (init_state CH_AB none) (cstr "\"duration\":10") true).2) = 1 :=
  have h := (timer_run_forces_on (init_state CH_AB none) (cstr "\"duration\":10")
    (by decide)).1 rfl
  ⟨by decide, h.1, h.2.1, h.2.2.2.2⟩

/-- C10: after `timer_fun` the device is off, no timer is running, the
channel is unchanged and the action `timer` has been reported completed once;
if the device was on, pin A and then pin B are written low and the power
property is announced exactly once; if it was off, no pin is written, no pin
level changes and the power property is not announced, so that a second
expiry leaves power, timer flag, channel and pins as the first left them. -/
theorem timer_fun_expiry (st : State) :
    (timer_fun st).device_is_on = false ∧
    (timer_fun st).timer_is_running = false ∧
    (timer_fun st).current_channel = st.current_channel ∧
    (new_events st (timer_fun st)).count (Event.complete_action "timer") = 1 ∧
    (st.device_is_on = true →
      pin_writes (new_events st (timer_fun st)) = [(Pin.GPIO_CH_A, 0), (Pin.GPIO_CH_B, 0)] ∧
      (timer_fun st).level_A = false ∧ (timer_fun st).level_B = false ∧
      announcements Property.prop_on (new_events st (timer_fun st)) = 1) ∧
    (st.device_is_on = false →
      pin_writes (new_events st (timer_fun st)) = [] ∧
      (timer_fun st).level_A = st.level_A ∧ (timer_fun st).level_B = st.level_B ∧
      announcements Property.prop_on (new_events st (timer_fun st)) = 0) ∧
    (pin_writes (new_events (timer_fun st) (timer_fun (timer_fun st))) = [] ∧
      announcements Property.prop_on (new_events (timer_fun st) (timer_fun (timer_fun st))) = 0 ∧
      (timer_fun (timer_fun st)).device_is_on = (timer_fun st).device_is_on ∧
      (timer_fun (timer_fun st)).timer_is_running = (timer_fun st).timer_is_running ∧
      (timer_fun (timer_fun st)).current_channel = (timer_fun st).current_channel ∧
      (timer_fun (timer_fun st)).level_A = (timer_fun st).level_A ∧
      (timer_fun (timer_fun st)).level_B = (timer_fun st).level_B) := by
  cases hon : st.device_is_on <;>
    simp [timer_fun, hon, new_events, switch_off_both, gpio_set_level, vTaskDelay, State.emit,
      inform_all_subscribers_prop, pin_writes, announcements]

/-! ### `set_channel` -/

theorem strcmp_eq_zero_iff (a b : List Char) (ha : is_c_string a) (hb : is_c_string b) :
    strcmp a b = 0 ↔ a = b := by
  induction a generalizing b with
  | nil =>
    cases b with
    | nil => simp [strcmp]
    | cons y ys =>
      have := hb y (by simp)
      simp [strcmp]
      exact this
  | cons x xs ih =>
    cases b with
    | nil =>
      have := ha x (by simp)
      simp [strcmp]
      exact this
    | cons y ys =>
      have hxs : is_c_string xs := fun c hc => ha c (by simp [hc])
      have hys : is_c_string ys := fun c hc => hb c (by simp [hc])
      by_cases hxy : x = y
      · subst hxy
        simp [strcmp, ih ys hxs hys]
      · simp only [strcmp, hxy, if_false, List.cons.injEq, false_and, iff_false]
        intro h0
        apply hxy
        have hn : x.toNat = y.toNat := by omega
        have hc := congrArg Char.ofNat hn
        simpa using hc

theorem strchr_append_quote (b rest : List Char) (hq : QUOTE ∉ b) :
    strchr (b ++ QUOTE :: rest) QUOTE = some b.length := by
  induction b with
  | nil => simp [strchr]
  | cons x xs ih =>
    have hx : ¬ x = QUOTE := fun e => hq (by simp [e])
    have hxs : QUOTE ∉ xs := fun e => hq (by simp [e])
    simp [strchr, hx, ih hxs]

/-- On an argument made of a quotation mark, a text `b` without quotation
mark, a second quotation mark and any remainder, the text compared is `b`,
the text between the first two quotation marks. -/
theorem set_channel_buff_quoted (b rest : List Char) (hq : QUOTE ∉ b) :
    set_channel_buff (QUOTE :: (b ++ QUOTE :: rest)) = some b := by
  simp [set_channel_buff, strchr_append_quote b rest hq]

theorem set_channel_find_eq (b : List Char) (hb : is_c_string b) :
    set_channel_find b enum_list 0 =
      if b = ['A'] then some (0, ['A'])
      else if b = ['B'] then some (1, ['B'])
      else if b = ['A', '+', 'B'] then some (2, ['A', '+', 'B'])
      else none := by
  have hA : is_c_string ['A'] := by
    intro c hc
    simp at hc
    subst hc
    decide
  have hB : is_c_string ['B'] := by
    intro c hc
    simp at hc
    subst hc
    decide
  have hAB : is_c_string ['A', '+', 'B'] := by
    intro c hc
    simp at hc
    rcases hc with rfl | rfl | rfl <;> decide
  simp only [set_channel_find, enum_list, channel_tab, strcmp_eq_zero_iff b _ hb hA,
    strcmp_eq_zero_iff b _ hb hB, strcmp_eq_zero_iff b _ hb hAB]
  rfl

theorem write_nvs_data_current_channel (st : State) (d : Int) (ok : Bool) :
    (write_nvs_data st d ok).current_channel = st.current_channel := by
  unfold write_nvs_data
  split <;> rfl

theorem set_channel_switch_current_channel (st : State) :
    (set_channel_switch st).current_channel = st.current_channel := by
  unfold set_channel_switch
  split_ifs <;> rfl

/-- The result and the channel left by `set_channel` in terms of the text
`buff` it compares. -/
theorem set_channel_of_buff (st : State) (s b : List Char) (ok : Bool)
    (hbc : is_c_string b) (hb : set_channel_buff s = some b) :
    ∃ st', set_channel st s ok = some
        (if b = ['A'] then (if st.current_channel = 0 then 0 else 1)
         else if b = ['B'] then (if st.current_channel = 1 then 0 else 1)
         else if b = ['A', '+', 'B'] then (if st.current_channel = 2 then 0 else 1)
         else -1, st') ∧
      st'.current_channel =
        (if b = ['A'] then 0 else if b = ['B'] then 1
         else if b = ['A', '+', 'B'] then 2 else st.current_channel) := by
  unfold set_channel
  simp only [hb]
  unfold set_channel_select
  rw [set_channel_find_eq b hbc]
  by_cases h1 : b = ['A']
  · by_cases hc : st.current_channel = 0
    · simp [h1, hc]
    · have hc' : ¬ (0 : Int) = st.current_channel := fun h => hc h.symm
      simp [h1, hc, hc', write_nvs_data_current_channel, set_channel_switch_current_channel]
      split_ifs <;> simp [write_nvs_data_current_channel, set_channel_switch_current_channel]
  · by_cases h2 : b = ['B']
    · by_cases hc : st.current_channel = 1
      · simp [h2, hc]
      · have hc' : ¬ (1 : Int) = st.current_channel := fun h => hc h.symm
        simp [h2, hc, hc', write_nvs_data_current_channel, set_channel_switch_current_channel]
        split_ifs <;> simp [write_nvs_data_current_channel, set_channel_switch_current_channel]
    · by_cases h3 : b = ['A', '+', 'B']
      · by_cases hc : st.current_channel = 2
        · simp [h3, hc]
        · have hc' : ¬ (2 : Int) = st.current_channel := fun h => hc h.symm
          simp [h3, hc, hc', write_nvs_data_current_channel, set_channel_switch_current_channel]
          split_ifs <;> simp [write_nvs_data_current_channel, set_channel_switch_current_channel]
      · simp [h1, h2, h3]

theorem Channel.exists_iff (P : Channel → Prop) :
    (∃ c : Channel, P c) ↔ P Channel.A ∨ P Channel.B ∨ P Channel.AB := by
  constructor
  · rintro ⟨c, hc⟩
    cases c
    · exact Or.inl hc
    · exact Or.inr (Or.inl hc)
    · exact Or.inr (Or.inr hc)
  · rintro (h | h | h)
    · exact ⟨_, h⟩
    · exact ⟨_, h⟩
    · exact ⟨_, h⟩

theorem Channel.forall_iff (P : Channel → Prop) :
    (∀ c : Channel, P c) ↔ P Channel.A ∧ P Channel.B ∧ P Channel.AB := by
  constructor
  · intro h
    exact ⟨h _, h _, h _⟩
  · rintro ⟨h1, h2, h3⟩ c
    cases c
    · exact h1
    · exact h2
    · exact h3

theorem Channel.display_A : Channel.A.display = ['A'] := rfl

theorem Channel.display_B : Channel.B.display = ['B'] := rfl

theorem Channel.display_AB : Channel.AB.display = ['A', '+', 'B'] := rfl

/-- C3, counterexample: on the argument `"A"x` with channel B current,
`set_channel` returns 1 and selects channel A, although the argument with a
wrapping quotation mark removed is none of the three display strings. -/
theorem set_channel_trailing_text :
    (set_channel (init_state CH_B none) (cstr "\"A\"x") true).map (fun p => (p.1, p.2.current_channel))
      = some (1, CH_A) ∧
    spec_unwrap (cstr "\"A\"x") ∉ channel_tab := by
  decide

/-- C3, amended: for every argument made of a quotation mark, a well-formed
text `b` without quotation mark, a second quotation mark and any remainder
(so that `b` is the text between the first two quotation marks and the
remainder is ignored), `set_channel` returns 1 exactly when `b` is the
display string of a channel other than the current one, 0 exactly when `b`
is the display string of the current channel, and a negative value exactly
when `b` is none of the three display strings; whenever `b` is the display
string of a channel, that channel is current afterwards. -/
theorem set_channel_result (st : State) (b rest : List Char) (ok : Bool)
    (hb : is_c_string b) (hq : QUOTE ∉ b) :
    ∃ r st', set_channel st (QUOTE :: (b ++ QUOTE :: rest)) ok = some (r, st') ∧
      (r = 1 ↔ ∃ c : Channel, b = c.display ∧ c.val ≠ st.current_channel) ∧
      (r = 0 ↔ ∃ c : Channel, b = c.display ∧ c.val = st.current_channel) ∧
      (r < 0 ↔ ∀ c : Channel, b ≠ c.display) ∧
      (∀ c : Channel, b = c.display → st'.current_channel = c.val) := by
  obtain ⟨st', h, hch⟩ := set_channel_of_buff st (QUOTE :: (b ++ QUOTE :: rest)) b ok hb
    (set_channel_buff_quoted b rest hq)
  have hAB : (['A'] : List Char) ≠ ['B'] := by decide
  have hA3 : (['A'] : List Char) ≠ ['A', '+', 'B'] := by decide
  have hB3 : (['B'] : List Char) ≠ ['A', '+', 'B'] := by decide
  refine ⟨_, st', h, ?_, ?_, ?_, ?_⟩ <;>
    simp only [Channel.exists_iff, Channel.forall_iff, Channel.display_A, Channel.display_B,
      Channel.display_AB, Channel.val, CH_A, CH_B, CH_AB, hch] <;>
    by_cases h1 : b = ['A'] <;> by_cases h2 : b = ['B'] <;> by_cases h3 : b = ['A', '+', 'B'] <;>
    simp_all <;> omega

/-- A concrete instance of the amended C3: the argument `"A+B"x"`, the text
`A+B` in quotation marks followed by `x"`, with channel A current. -/
theorem set_channel_result_witness :
    is_c_string (cstr "A+B") ∧ QUOTE ∉ cstr "A+B" ∧
    QUOTE :: (cstr "A+B" ++ QUOTE :: cstr "x\"") = cstr "\"A+B\"x\"" ∧
    ∃ r st', set_channel (init_state CH_A none) (QUOTE :: (cstr "A+B" ++ QUOTE :: cstr "x\"")) true
        = some (r, st') ∧
      (r = 1 ↔ ∃ c : Channel, cstr "A+B" = c.display ∧ c.val ≠ (init_state CH_A none).current_channel) ∧
      (r = 0 ↔ ∃ c : Channel, cstr "A+B" = c.display ∧ c.val = (init_state CH_A none).current_channel) ∧
      (r < 0 ↔ ∀ c : Channel, cstr "A+B" ≠ c.display) ∧
      (∀ c : Channel, cstr "A+B" = c.display → st'.current_channel = c.val) :=
  ⟨by decide, by decide, by decide,
    set_channel_result (init_state CH_A none) (cstr "A+B") (cstr "x\"") true
      (by decide) (by decide)⟩

/-- A quoted text that matches none of the three display strings is rejected
with -1 and the state, the store and the trace are left as they were. -/
theorem set_channel_no_match (st : State) (b rest : List Char) (ok : Bool)
    (hb : is_c_string b) (hq : QUOTE ∉ b) (hn : ∀ c : Channel, b ≠ c.display) :
    set_channel st (QUOTE :: (b ++ QUOTE :: rest)) ok = some (-1, st) := by
  have h1 : b ≠ ['A'] := hn Channel.A
  have h2 : b ≠ ['B'] := hn Channel.B
  have h3 : b ≠ ['A', '+', 'B'] := hn Channel.AB
  unfold set_channel
  simp only [set_channel_buff_quoted b rest hq]
  unfold set_channel_select
  rw [set_channel_find_eq b hb]
  simp [h1, h2, h3]

/-- An argument that begins with a quotation mark and holds no second one
gives `set_channel` no defined result. -/
theorem set_channel_no_closing_quote (st : State) (rest : List Char) (ok : Bool)
    (h : QUOTE ∉ rest) : set_channel st (QUOTE :: rest) ok = none := by
  have hnone : strchr rest QUOTE = none := by
    induction rest with
    | nil => rfl
    | cons a as ih =>
      have ha : ¬ a = QUOTE := fun e => h (by simp [e])
      have has : QUOTE ∉ as := fun e => h (by simp [e])
      simp [strchr, ha, ih has]
  simp [set_channel, set_channel_buff, hnone]

/-- C4: on the argument `"A`, an opening quotation mark without a closing
one, `set_channel` has no defined result: `strchr` gives NULL, the length
computed from it is not a length, and the copy that follows is undefined. No
negative value is returned. -/
theorem set_channel_unmatched_quote :
    set_channel (init_state CH_AB none) (cstr "\"A") true = none := by
  decide

/-- C5: on the payload `"duration":-1` with no timer running, `timer_run`
returns 0, creates a timer with the period -60000 ms and marks it running:
the check `duration > 600 || duration == 0` lets negative durations pass. -/
theorem timer_run_negative_duration :
    (timer_run (init_state CH_AB none) (cstr "\"duration\":-1") true).1 = 0 ∧
    (timer_run (init_state CH_AB none) (cstr "\"duration\":-1") true).2.timer = some (-60000) ∧
    (timer_run (init_state CH_AB none) (cstr "\"duration\":-1") true).2.timer_is_running
      = true := by
  decide

/-! ### Durations in decimal rendering -/

theorem decimal_eq_toString (d : Int) : decimal d = (toString d).toList := by
  cases d <;> rfl

theorem duration_payload_example : duration_payload (-1) = cstr "\"duration\":-1" := by
  decide

theorem digitChar_isdigit (m : Nat) (h : m < 10) :
    isdigit (Nat.digitChar m) = true ∧ ((Nat.digitChar m).toNat : Int) - 48 = m := by
  interval_cases m <;> decide

theorem atoi_digits_toDigitsCore (fuel : Nat) :
    ∀ (n : Nat) (ds : List Char), n < fuel →
      atoi_digits (Nat.toDigitsCore 10 fuel n ds) 0 = atoi_digits ds n := by
  induction fuel with
  | zero => intro n ds h; omega
  | succ fuel ih =>
    intro n ds h
    have hm := digitChar_isdigit (n % 10) (Nat.mod_lt _ (by decide))
    simp only [Nat.toDigitsCore]
    by_cases h0 : n / 10 = 0
    · simp only [h0, if_true, atoi_digits, hm.1, hm.2]
      congr 1
      omega
    · simp only [h0, if_false]
      rw [ih (n / 10) _ (by omega)]
      simp only [atoi_digits, hm.1, if_true, hm.2]
      congr 1
      omega

theorem toDigitsCore_head (fuel : Nat) :
    ∀ (n : Nat) (ds : List Char), n < fuel →
      ∃ c cs, Nat.toDigitsCore 10 fuel n ds = c :: cs ∧ isdigit c = true := by
  induction fuel with
  | zero => intro n ds h; omega
  | succ fuel ih =>
    intro n ds h
    have hm := digitChar_isdigit (n % 10) (Nat.mod_lt _ (by decide))
    simp only [Nat.toDigitsCore]
    by_cases h0 : n / 10 = 0
    · simp only [h0, if_true]
      exact ⟨_, _, rfl, hm.1⟩
    · simp only [h0, if_false]
      exact ih (n / 10) _ (by omega)

theorem atoi_digit_head (c : Char) (cs : List Char) (h : isdigit c = true) :
    atoi (c :: cs) = atoi_digits (c :: cs) 0 := by
  simp only [isdigit, Bool.and_eq_true, decide_eq_true_eq] at h
  have hsp : isspace c = false := by
    simp only [isspace, Bool.or_eq_false_iff, Bool.and_eq_false_iff, decide_eq_false_iff_not]
    omega
  have hminus : ¬ c = '-' := by
    intro e
    rw [e] at h
    revert h
    decide
  have hplus : ¬ c = '+' := by
    intro e
    rw [e] at h
    revert h
    decide
  simp [atoi, List.dropWhile, hsp, hminus, hplus]

theorem atoi_toDigits (n : Nat) : atoi (Nat.toDigits 10 n) = n := by
  obtain ⟨c, cs, hc, hd⟩ := toDigitsCore_head (n + 1) n [] (by omega)
  unfold Nat.toDigits
  rw [hc, atoi_digit_head c cs hd, ← hc, atoi_digits_toDigitsCore (n + 1) n [] (by omega)]
  rfl

/-- The function `atoi` reads back the decimal rendering of every integer. -/
theorem atoi_decimal (d : Int) : atoi (decimal d) = d := by
  cases d with
  | ofNat n => exact atoi_toDigits n
  | negSucc n =>
    obtain ⟨c, cs, hc, hd⟩ := toDigitsCore_head (n + 1 + 1) (n + 1) [] (by omega)
    have h := atoi_digits_toDigitsCore (n + 1 + 1) (n + 1) [] (by omega)
    simp only [decimal, Nat.toDigits, atoi, List.dropWhile]
    have hsp : isspace '-' = false := by decide
    simp only [hsp, if_true]
    rw [h]
    simp only [atoi_digits, Int.negSucc_eq]
    push_cast
    ring

theorem timer_run_buff_payload (d : Int) :
    timer_run_buff (duration_payload d) =
      if (decimal d).length > 5 then none else some (decimal d) := by
  have hq : ¬ QUOTE = 'd' := by decide
  have hq2 : ¬ QUOTE = ':' := by decide
  have hlen : ∀ k : Nat, ((k : Int) + 1 + 1 + 1 + 1 + 1 + 1 + 1 + 1 + 1 + 1 + 1 - 11) = k := by
    intro k
    ring
  simp [timer_run_buff, duration_payload, strstr, List.isPrefixOf, hq, hq2, strchr, hlen]

/-- What `timer_run` does on the payload `"duration":d` when no timer is
running and the rendering of `d` has at most 5 characters: it returns 0 when
`d` is not 0 and at most 600, negative values included, and -1 otherwise. -/
theorem timer_run_payload (st : State) (d : Int) (ok : Bool)
    (hrun : st.timer_is_running = false) (hlen : (decimal d).length ≤ 5) :
    (timer_run st (duration_payload d) ok).1 = if d ≤ 600 ∧ d ≠ 0 then 0 else -1 := by
  have hb : timer_run_duration (duration_payload d) =
      if d > 600 ∨ d = 0 then none else some d := by
    simp only [timer_run_duration, timer_run_buff_payload]
    have : ¬ (decimal d).length > 5 := by omega
    simp only [this, if_false, atoi_decimal]
  by_cases h1 : d > 600 ∨ d = 0
  · have h2 : ¬ (d ≤ 600 ∧ d ≠ 0) := by
      rcases h1 with h1 | h1
      · omega
      · simp [h1]
    rw [if_pos h1] at hb
    simp [timer_run, hrun, hb, h2, timer_run_inputs_error]
  · have h2 : d ≤ 600 ∧ d ≠ 0 := by
      constructor
      · omega
      · intro e
        exact h1 (Or.inr e)
    rw [if_neg h1] at hb
    rw [timer_run_accepted st _ ok d hrun hb, if_pos h2]

/-- A payload whose duration is not accepted is rejected with -1. -/
theorem timer_run_rejected (st : State) (inputs : List Char) (ok : Bool)
    (h : timer_run_duration inputs = none) : (timer_run st inputs ok).1 = -1 := by
  unfold timer_run
  split
  · rfl
  · simp [h, timer_run_inputs_error]

/-- The four ways a payload fails to carry a duration: no `duration` key, no
colon after it, more than 5 characters after the colon, or a value `atoi`
reads as 0 (as it does every text without a leading number). -/
theorem timer_run_duration_none (inputs : List Char) :
    (strstr inputs (cstr "duration") = none → timer_run_duration inputs = none) ∧
    (∀ k, strstr inputs (cstr "duration") = some k → strchr (inputs.drop k) ':' = none →
      timer_run_duration inputs = none) ∧
    (∀ k j, strstr inputs (cstr "duration") = some k → strchr (inputs.drop k) ':' = some j →
      (inputs.length : Int) - ((k + j : Nat) + 1) > 5 → timer_run_duration inputs = none) ∧
    (∀ buff, timer_run_buff inputs = some buff → atoi buff = 0 →
      timer_run_duration inputs = none) := by
  have hc : cstr "duration" = ['d', 'u', 'r', 'a', 't', 'i', 'o', 'n'] := by decide
  rw [hc]
  refine ⟨?_, ?_, ?_, ?_⟩
  · intro h
    simp [timer_run_duration, timer_run_buff, h]
  · intro k h1 h2
    simp [timer_run_duration, timer_run_buff, h1, h2]
  · intro k j h1 h2 h3
    simp only [timer_run_duration, timer_run_buff, h1, h2]
    rw [if_pos h3]
  · intro buff h1 h2
    simp [timer_run_duration, h1, h2]

/-! ### `set_on_off` -/

/-- C11, counterexample: asked to turn on a device that is already on,
`set_on_off` returns 1 although `device_is_on` is true before and after. -/
theorem set_on_off_already_on :
    (set_on_off { init_state CH_A none with device_is_on := true, level_A := true }
      (cstr "true")).1 = 1 ∧
    (set_on_off { init_state CH_A none with device_is_on := true, level_A := true }
      (cstr "true")).2.device_is_on = true := by
  decide

/-- C11, amended: for every prior power state and every input string
`set_on_off` returns 1, whether or not the resulting `device_is_on` differs
from the prior one; the resulting `device_is_on` is true exactly when the
input compares equal to `true`. -/
theorem set_on_off_returns_one (st : State) (s : List Char) :
    (set_on_off st s).1 = 1 ∧
    ((set_on_off st s).2.device_is_on = true ↔ strcmp s (cstr "true") = 0) := by
  have hc : cstr "true" = ['t', 'r', 'u', 'e'] := by decide
  rw [hc]
  unfold set_on_off
  split
  · rename_i h
    simp [h, (switch_on_channel_frame _).2.1]
  · rename_i h
    simp [h, switch_off_both, gpio_set_level, vTaskDelay, State.emit]

/-- C19: asked to turn on (input `true`), `set_on_off` sets `device_is_on`
and writes exactly the pins of the current channel: A alone for channel A, B
alone for channel B, A and then B for channel AB; asked to turn off (any
other input) it clears `device_is_on` and writes A low and then B low,
whatever the channel; `current_channel` is unchanged in both cases. -/
theorem set_on_off_pin_writes (st : State) (c : Channel) (s : List Char)
    (hs : is_c_string s) (hch : st.current_channel = c.val) :
    (s = cstr "true" →
      (set_on_off st s).2.device_is_on = true ∧
      pin_writes (new_events st (set_on_off st s).2) =
        (match c with
         | Channel.A => [(Pin.GPIO_CH_A, 1)]
         | Channel.B => [(Pin.GPIO_CH_B, 1)]
         | Channel.AB => [(Pin.GPIO_CH_A, 1), (Pin.GPIO_CH_B, 1)]) ∧
      (set_on_off st s).2.current_channel = st.current_channel) ∧
    (s ≠ cstr "true" →
      (set_on_off st s).2.device_is_on = false ∧
      pin_writes (new_events st (set_on_off st s).2) =
        [(Pin.GPIO_CH_A, 0), (Pin.GPIO_CH_B, 0)] ∧
      (set_on_off st s).2.current_channel = st.current_channel) := by
  have hc : cstr "true" = ['t', 'r', 'u', 'e'] := by decide
  have ht : is_c_string ['t', 'r', 'u', 'e'] := by decide
  have hiff := strcmp_eq_zero_iff s _ hs ht
  rw [hc]
  constructor
  · intro h
    have h0 : strcmp s ['t', 'r', 'u', 'e'] = 0 := hiff.mpr h
    unfold set_on_off
    rw [if_pos h0]
    refine ⟨(switch_on_channel_frame _).2.1, ?_, (switch_on_channel_frame _).2.2.1⟩
    unfold new_events
    rw [switch_on_channel_trace]
    cases c <;> simp [hch, Channel.val, CH_A, CH_B, CH_AB, pin_writes]
  · intro h
    have h0 : ¬ strcmp s ['t', 'r', 'u', 'e'] = 0 := fun e => h (hiff.mp e)
    unfold set_on_off
    rw [if_neg h0]
    simp [new_events, switch_off_both, gpio_set_level, vTaskDelay, State.emit, pin_writes]

/-- A concrete instance of C19: switching on with channel AB current. -/
theorem set_on_off_pin_writes_witness :
    is_c_string (cstr "true") ∧ (init_state CH_AB none).current_channel = Channel.AB.val ∧
    (set_on_off (init_state CH_AB none) (cstr "true")).2.device_is_on = true ∧
    pin_writes (new_events (init_state CH_AB none)
      (set_on_off (init_state CH_AB none) (cstr "true")).2)
        = [(Pin.GPIO_CH_A, 1), (Pin.GPIO_CH_B, 1)] ∧
    (set_on_off (init_state CH_AB none) (cstr "true")).2.current_channel = CH_AB :=
  ⟨by decide, rfl,
    (set_on_off_pin_writes (init_state CH_AB none) Channel.AB (cstr "true")
      (by decide) rfl).1 rfl⟩

/-! ### Daily on-time -/

/-- C20: when the year field of the decomposed time is not later than 2018,
`update_on_time` with `reset` false or true leaves the whole state as it
was: the two counters and `on_time_last_update` are unchanged and no
external call, so no announcement, is made. -/
theorem update_on_time_invalid_time (st : State) (reset : Bool) (t y : Int)
    (h : y ≤ 2018 - 1900) : update_on_time st reset t y = st := by
  unfold update_on_time
  have h' : ¬ y > 2018 - 1900 := by omega
  simp only [h', if_false]

/-- A concrete instance of C20: a reset attempted in 1970 on a state with
accumulated time. -/
theorem update_on_time_invalid_time_witness :
    update_on_time { init_state CH_AB none with daily_on_time_sec := 120, daily_on_time_min := 2 }
      true 5 70
      = { init_state CH_AB none with daily_on_time_sec := 120, daily_on_time_min := 2 } :=
  update_on_time_invalid_time _ true 5 70 (by decide)

/-- C15, counterexample: with the clock still in 1970, `daily_on_time_reset`
leaves the accumulated 120 seconds and 2 minutes in place and announces
nothing. -/
theorem daily_on_time_reset_invalid_time :
    (daily_on_time_reset
      { init_state CH_AB none with daily_on_time_sec := 120, daily_on_time_min := 2 }
      5 70).daily_on_time_sec = 120 ∧
    (daily_on_time_reset
      { init_state CH_AB none with daily_on_time_sec := 120, daily_on_time_min := 2 }
      5 70).daily_on_time_min = 2 ∧
    (daily_on_time_reset
      { init_state CH_AB none with daily_on_time_sec := 120, daily_on_time_min := 2 }
      5 70).trace = [] := by
  decide

/-- C15, amended: for every state, when the time source is valid (year later
than 2018), `daily_on_time_reset` leaves both counters at 0 and announces the
daily-on-time property exactly once, also when both counters were 0 before. -/
theorem daily_on_time_reset_valid_time (st : State) (t y : Int) (h : y > 2018 - 1900) :
    (daily_on_time_reset st t y).daily_on_time_sec = 0 ∧
    (daily_on_time_reset st t y).daily_on_time_min = 0 ∧
    announcements Property.prop_daily_on_time
      (new_events st (daily_on_time_reset st t y)) = 1 := by
  unfold daily_on_time_reset update_on_time
  simp only [h, if_true, Bool.or_true]
  split_ifs <;>
    simp [inform_all_subscribers_prop, State.emit, new_events, announcements]

/-- A concrete instance of the amended C15: a reset in 2023 of counters that
are already 0. -/
theorem daily_on_time_reset_valid_time_witness :
    (daily_on_time_reset (init_state CH_AB none) 1700000000 123).daily_on_time_sec = 0 ∧
    (daily_on_time_reset (init_state CH_AB none) 1700000000 123).daily_on_time_min = 0 ∧
    announcements Property.prop_daily_on_time
      (new_events (init_state CH_AB none)
        (daily_on_time_reset (init_state CH_AB none) 1700000000 123)) = 1 :=
  daily_on_time_reset_valid_time _ 1700000000 123 (by decide)

theorem wrap32_of_in_range (x : Int) (h1 : -2147483648 ≤ x) (h2 : x < 2147483648) :
    wrap32 x = x := by
  unfold wrap32
  omega

/-- One tick with the device on and a valid clock, within the range of `int`:
the elapsed seconds are added and the timestamp is recorded. -/
theorem update_on_time_tick (st : State) (t y : Int)
    (hon : st.device_is_on = true) (hy : y > 2018 - 1900)
    (h0 : st.on_time_last_update ≤ t) (h1 : t - st.on_time_last_update < 2147483648)
    (hlo : -2147483648 ≤ st.daily_on_time_sec)
    (hhi : st.daily_on_time_sec + (t - st.on_time_last_update) < 2147483648) :
    (update_on_time st false t y).daily_on_time_sec =
      st.daily_on_time_sec + (t - st.on_time_last_update) ∧
    (update_on_time st false t y).on_time_last_update = t ∧
    (update_on_time st false t y).device_is_on = true := by
  have hd : wrap32 (t - st.on_time_last_update) = t - st.on_time_last_update :=
    wrap32_of_in_range _ (by omega) h1
  unfold update_on_time
  simp only [hy, if_true, hon, hd, true_and, Bool.or_false, Bool.false_eq_true, if_false]
  by_cases hpos : t - st.on_time_last_update > 0
  · have hs : wrap32 (st.daily_on_time_sec + (t - st.on_time_last_update)) =
        st.daily_on_time_sec + (t - st.on_time_last_update) :=
      wrap32_of_in_range _ (by omega) hhi
    simp only [hpos, if_true, hs]
    split_ifs <;> simp [inform_all_subscribers_prop, State.emit, hon]
  · have hz : t - st.on_time_last_update = 0 := by omega
    simp only [hpos, if_false, hz]
    simp [hon]

/-- A tick never changes the power state. -/
theorem update_on_time_device_is_on (st : State) (reset : Bool) (t y : Int) :
    (update_on_time st reset t y).device_is_on = st.device_is_on := by
  unfold update_on_time
  simp only [inform_all_subscribers_prop, State.emit]
  split_ifs <;> rfl

theorem le_last_time (t0 : Int) (ticks : List (Int × Int)) (h : nondecreasing t0 ticks) :
    t0 ≤ last_time t0 ticks := by
  induction ticks generalizing t0 with
  | nil => exact le_refl _
  | cons tick rest ih =>
    obtain ⟨h1, h2⟩ := h
    exact le_trans h1 (ih tick.1 h2)

/-- C12, counterexample: with the device on, a single valid tick at
3000000000 (year 2065) from `on_time_last_update = 0` adds nothing, because
the elapsed time does not fit the `int` `delta_t`; and from 2000000000
accumulated seconds with `on_time_last_update = 1700000000`, a valid tick at
2000000000 (year 2033) leaves `daily_on_time_sec = -1994967296` instead of
adding 300000000. -/
theorem run_ticks_beyond_int :
    (run_ticks { init_state CH_AB none with device_is_on := true }
      [(3000000000, 165)]).daily_on_time_sec = 0 ∧
    (run_ticks { init_state CH_AB none with device_is_on := true, daily_on_time_sec := 2000000000, daily_on_time_min := 33333333, on_time_last_update := 1700000000 }
      [(2000000000, 133)]).daily_on_time_sec = -1994967296 := by
  decide

/-- C12, amended: with the device on and `on_time_last_update = t0`, successive calls
`update_on_time(false)` at valid timestamps that do not decrease from `t0`
increase `daily_on_time_sec` by exactly the last timestamp minus `t0`,
however the interval is split into ticks, provided `daily_on_time_sec` is in
the range of a 32-bit `int` before the first call and the elapsed total and
the resulting sum are below 2^31; and a tick while the device is off leaves
`daily_on_time_sec` unchanged. -/
theorem run_ticks_adds_elapsed (st : State) (ticks : List (Int × Int))
    (hon : st.device_is_on = true)
    (hvalid : ∀ tick ∈ ticks, tick.2 > 2018 - 1900)
    (hmono : nondecreasing st.on_time_last_update ticks)
    (hlo : -2147483648 ≤ st.daily_on_time_sec)
    (hspan : last_time st.on_time_last_update ticks - st.on_time_last_update < 2147483648)
    (hhi : st.daily_on_time_sec +
      (last_time st.on_time_last_update ticks - st.on_time_last_update) < 2147483648) :
    (run_ticks st ticks).daily_on_time_sec =
      st.daily_on_time_sec + (last_time st.on_time_last_update ticks - st.on_time_last_update) ∧
    (∀ (st2 : State) (t y : Int), st2.device_is_on = false →
      (update_on_time st2 false t y).daily_on_time_sec = st2.daily_on_time_sec) := by
  constructor
  · induction ticks generalizing st with
    | nil => simp [run_ticks, last_time]
    | cons tick rest ih =>
      obtain ⟨hm1, hm2⟩ := hmono
      have hle := le_last_time tick.1 rest hm2
      simp only [last_time] at hspan hhi ⊢
      have hy : tick.2 > 2018 - 1900 := hvalid tick (by simp)
      obtain ⟨e1, e2, e3⟩ := update_on_time_tick st tick.1 tick.2 hon hy hm1
        (by omega) hlo (by omega)
      simp only [run_ticks]
      rw [ih (update_on_time st false tick.1 tick.2) e3
        (fun x hx => hvalid x (by simp [hx])) (by rw [e2]; exact hm2) (by rw [e1]; omega)
        (by rw [e2]; omega) (by rw [e1, e2]; omega)]
      rw [e1, e2]
      ring
  · intro st2 t y hoff
    unfold update_on_time
    simp only [hoff, Bool.false_eq_true, false_and, if_false, inform_all_subscribers_prop,
      State.emit]
    split_ifs <;> rfl

/-- A concrete instance of the amended C12: 90 seconds split into three
ticks. -/
theorem run_ticks_adds_elapsed_witness :
    (run_ticks { init_state CH_AB none with device_is_on := true, on_time_last_update := 1700000000 }
      [(1700000010, 123), (1700000010, 123), (1700000090, 123)]).daily_on_time_sec = 0 + (1700000090 - 1700000000) :=
  (run_ticks_adds_elapsed
    { init_state CH_AB none with device_is_on := true, on_time_last_update := 1700000000 }
    [(1700000010, 123), (1700000010, 123), (1700000090, 123)] rfl (by decide)
    (by simp [nondecreasing]) (by decide) (by decide) (by decide)).1

theorem daily_inv_congr (st st' : State) (h : daily_inv st)
    (h1 : st'.daily_on_time_sec = st.daily_on_time_sec)
    (h2 : st'.daily_on_time_min = st.daily_on_time_min) : daily_inv st' := by
  unfold daily_inv at *
  rw [h1, h2]
  exact h

theorem update_on_time_daily_inv (st : State) (reset : Bool) (t y : Int)
    (h : daily_inv st) (hr : tick_in_range st t y) :
    daily_inv (update_on_time st reset t y) := by
  obtain ⟨hsec, hmin⟩ := h
  unfold update_on_time
  by_cases hy : y > 2018 - 1900
  · simp only [hy, if_true]
    cases reset
    · by_cases hadd : st.device_is_on = true ∧ wrap32 (t - st.on_time_last_update) > 0
      · have hlt := hr hy hadd.1 hadd.2
        have hs : wrap32 (st.daily_on_time_sec + wrap32 (t - st.on_time_last_update)) =
            st.daily_on_time_sec + wrap32 (t - st.on_time_last_update) :=
          wrap32_of_in_range _ (by omega) hlt
        have hnn : 0 ≤ st.daily_on_time_sec + wrap32 (t - st.on_time_last_update) := by omega
        simp only [hadd, and_self, if_true, hs, Bool.or_false, Bool.false_eq_true, if_false,
          inform_all_subscribers_prop, State.emit]
        split_ifs <;> exact ⟨hnn, (Int.fdiv_eq_tdiv hnn (by decide)).symm⟩
      · simp only [hadd, if_false, Bool.or_false, Bool.false_eq_true,
          inform_all_subscribers_prop, State.emit]
        split_ifs <;> exact ⟨hsec, hmin⟩
    · have hz : Int.fdiv 0 60 = 0 := by decide
      simp [daily_inv, inform_all_subscribers_prop, State.emit, hz]
  · simp only [hy, if_false]
    exact ⟨hsec, hmin⟩

theorem set_on_off_daily (st : State) (s : List Char) :
    (set_on_off st s).2.daily_on_time_sec = st.daily_on_time_sec ∧
    (set_on_off st s).2.daily_on_time_min = st.daily_on_time_min := by
  unfold set_on_off switch_on_channel switch_off_both
  split_ifs <;> simp [gpio_set_level, vTaskDelay, State.emit]

theorem timer_fun_daily (st : State) :
    (timer_fun st).daily_on_time_sec = st.daily_on_time_sec ∧
    (timer_fun st).daily_on_time_min = st.daily_on_time_min := by
  unfold timer_fun switch_off_both
  cases hon : st.device_is_on <;>
    simp [gpio_set_level, vTaskDelay, State.emit, inform_all_subscribers_prop, hon]

theorem timer_run_daily (st : State) (s : List Char) (ok : Bool) :
    (timer_run st s ok).2.daily_on_time_sec = st.daily_on_time_sec ∧
    (timer_run st s ok).2.daily_on_time_min = st.daily_on_time_min := by
  unfold timer_run timer_run_inputs_error switch_on_channel
  split
  · simp [State.emit]
  · split
    · simp [State.emit]
    · cases ok <;> cases hon : st.device_is_on <;>
        simp [gpio_set_level, vTaskDelay, State.emit, inform_all_subscribers_prop, hon] <;>
        split_ifs <;> simp

theorem write_nvs_data_daily (st : State) (d : Int) (ok : Bool) :
    (write_nvs_data st d ok).daily_on_time_sec = st.daily_on_time_sec ∧
    (write_nvs_data st d ok).daily_on_time_min = st.daily_on_time_min := by
  unfold write_nvs_data
  split <;> exact ⟨rfl, rfl⟩

theorem set_channel_switch_daily (st : State) :
    (set_channel_switch st).daily_on_time_sec = st.daily_on_time_sec ∧
    (set_channel_switch st).daily_on_time_min = st.daily_on_time_min := by
  unfold set_channel_switch
  split_ifs <;> exact ⟨rfl, rfl⟩

theorem set_channel_select_daily (st : State) (buff : List Char) :
    (set_channel_select st buff).2.daily_on_time_sec = st.daily_on_time_sec ∧
    (set_channel_select st buff).2.daily_on_time_min = st.daily_on_time_min := by
  unfold set_channel_select
  cases set_channel_find buff enum_list 0 with
  | none => exact ⟨rfl, rfl⟩
  | some p =>
    simp only
    split_ifs <;> exact ⟨rfl, rfl⟩

theorem set_channel_daily (st st' : State) (s : List Char) (ok : Bool) (r : Int)
    (h : set_channel st s ok = some (r, st')) :
    st'.daily_on_time_sec = st.daily_on_time_sec ∧
    st'.daily_on_time_min = st.daily_on_time_min := by
  unfold set_channel at h
  cases hb : set_channel_buff s with
  | none => simp [hb] at h
  | some buff =>
    simp only [hb, Option.some.injEq, Prod.mk.injEq] at h
    obtain ⟨-, rfl⟩ := h
    have h1 := set_channel_select_daily st buff
    split_ifs <;>
      (try rw [(write_nvs_data_daily _ _ _).1, (write_nvs_data_daily _ _ _).2]) <;>
      (try rw [(set_channel_switch_daily _).1, (set_channel_switch_daily _).2]) <;>
      exact h1

theorem daily_reachable_inv (st : State) (h : DailyReachable st) : daily_inv st := by
  induction h with
  | init st h1 h2 =>
    unfold daily_inv
    rw [h1, h2]
    exact ⟨le_refl _, by decide⟩
  | update_on_time st reset t y _ hr ih => exact update_on_time_daily_inv st reset t y ih hr
  | daily_on_time_reset st t y _ hr ih => exact update_on_time_daily_inv st true t y ih hr
  | set_on_off st s _ ih =>
    exact daily_inv_congr st _ ih (set_on_off_daily st s).1 (set_on_off_daily st s).2
  | set_channel st s ok r st' _ hs ih =>
    exact daily_inv_congr st _ ih (set_channel_daily st st' s ok r hs).1
      (set_channel_daily st st' s ok r hs).2
  | timer_run st s ok _ ih =>
    exact daily_inv_congr st _ ih (timer_run_daily st s ok).1 (timer_run_daily st s ok).2
  | timer_fun st _ ih =>
    exact daily_inv_congr st _ ih (timer_fun_daily st).1 (timer_fun_daily st).2

/-- One call of `update_on_time`, at any timestamp, keeps the minutes equal
to the seconds divided by 60 with the truncating division of C. -/
theorem update_on_time_minutes_trunc (st : State) (reset : Bool) (t y : Int)
    (h : st.daily_on_time_min = Int.tdiv st.daily_on_time_sec 60) :
    (update_on_time st reset t y).daily_on_time_min =
      Int.tdiv (update_on_time st reset t y).daily_on_time_sec 60 := by
  unfold update_on_time
  cases reset <;>
    simp only [inform_all_subscribers_prop, State.emit, Bool.or_false, Bool.or_true] <;>
    split_ifs <;> first | exact h | rfl

/-- C13, counterexample: from the initial state, after `set_on_off("true")`
and valid ticks at 2000000000, 1700000000 and 2000000000, the accumulated
seconds have left the range of `int`: `daily_on_time_sec = -1994967296` and
`daily_on_time_min = -33249454`, while the floor of the seconds divided by
60 is -33249455. -/
theorem daily_minutes_not_floor :
    Reachable (run_ticks (set_on_off (init_state CH_AB none) (cstr "true")).2
      [(2000000000, 133), (1700000000, 123), (2000000000, 133)]) ∧
    (run_ticks (set_on_off (init_state CH_AB none) (cstr "true")).2
      [(2000000000, 133), (1700000000, 123), (2000000000, 133)]).daily_on_time_sec
        = -1994967296 ∧
    (run_ticks (set_on_off (init_state CH_AB none) (cstr "true")).2
      [(2000000000, 133), (1700000000, 123), (2000000000, 133)]).daily_on_time_min
        = -33249454 ∧
    Int.fdiv (-1994967296) 60 = -33249455 := by
  refine ⟨?_, by decide, by decide, by decide⟩
  show Reachable (update_on_time (update_on_time (update_on_time
    (set_on_off (init_state CH_AB none) (cstr "true")).2 false 2000000000 133)
    false 1700000000 123) false 2000000000 133)
  exact Reachable.step _ _ (Reachable.step _ _ (Reachable.step _ _ (Reachable.step _ _
    (Reachable.init (init_state CH_AB none) ⟨rfl, rfl, rfl, Or.inr (Or.inr rfl)⟩)
    (Step.set_on_off _ _))
    (Step.update_on_time _ _ _ _)) (Step.update_on_time _ _ _ _)) (Step.update_on_time _ _ _ _)

/-- C13, amended: in the initial state (both counters 0) and after every call
of `update_on_time`, with `reset` false or true, and of
`daily_on_time_reset`, at every timestamp and power state,
`daily_on_time_min` is the floor of `daily_on_time_sec / 60`, as long as no
addition `daily_on_time_sec += delta_t` of the run has left the range of a
32-bit `int`. -/
theorem daily_minutes_floor (st : State) (h : DailyReachable st) :
    st.daily_on_time_min = Int.fdiv st.daily_on_time_sec 60 :=
  (daily_reachable_inv st h).2

/-- A concrete instance of the amended C13: 125 seconds of on-time give 2
minutes. -/
theorem daily_minutes_floor_witness :
    (update_on_time
      { init_state CH_AB none with device_is_on := true, on_time_last_update := 1700000000 }
      false 1700000125 123).daily_on_time_sec = 125 ∧
    (update_on_time
      { init_state CH_AB none with device_is_on := true, on_time_last_update := 1700000000 }
      false 1700000125 123).daily_on_time_min = Int.fdiv 125 60 :=
  ⟨by decide,
    daily_minutes_floor _ (DailyReachable.update_on_time
      { init_state CH_AB none with device_is_on := true, on_time_last_update := 1700000000 }
      false 1700000125 123 (DailyReachable.init _ rfl rfl) (by unfold tick_in_range; decide))⟩

/-- C14: from the initial state, with the device switched on while the clock
is not yet valid, the first tick at which the clock is valid (1700000000, in
2023) adds the whole time since the epoch: `daily_on_time_min` becomes
28333333, above 1440. No addition leaves the range of `int` on the way. -/
theorem first_valid_tick_minutes :
    Reachable (update_on_time (update_on_time
      (set_on_off (init_state CH_AB none) (cstr "true")).2 false 30 70) false 1700000000 123) ∧
    DailyReachable (update_on_time (update_on_time
      (set_on_off (init_state CH_AB none) (cstr "true")).2 false 30 70) false 1700000000 123) ∧
    (update_on_time (update_on_time
      (set_on_off (init_state CH_AB none) (cstr "true")).2 false 30 70)
        false 1700000000 123).daily_on_time_min = 28333333 ∧
    ¬ (update_on_time (update_on_time
      (set_on_off (init_state CH_AB none) (cstr "true")).2 false 30 70)
        false 1700000000 123).daily_on_time_min ≤ 1440 := by
  refine ⟨?_, ?_, by decide, by decide⟩
  · exact Reachable.step _ _ (Reachable.step _ _ (Reachable.step _ _
      (Reachable.init _ ⟨rfl, rfl, rfl, Or.inr (Or.inr rfl)⟩) (Step.set_on_off _ _))
      (Step.update_on_time _ _ _ _)) (Step.update_on_time _ _ _ _)
  · exact DailyReachable.update_on_time _ _ _ _ (DailyReachable.update_on_time _ _ _ _
      (DailyReachable.set_on_off _ _ (DailyReachable.init _ rfl rfl))
      (by unfold tick_in_range; decide)) (by unfold tick_in_range; decide)

/-! ### Persistence -/

/-- What `read_nvs_data` leaves in `current_channel`: the default when the
store does not open or holds no key, the stored value in the low byte
otherwise. -/
theorem read_nvs_data_current_channel (st : State) (ok : Bool) :
    (read_nvs_data st ok).current_channel =
      if ok = true then
        (match st.nvs_curr_channel with
         | some v => v % 256
         | none => CH_AB)
      else CH_AB := by
  unfold read_nvs_data
  cases ok
  · simp [State.emit]
  · cases hv : st.nvs_curr_channel with
    | none => simp [State.emit, hv]
    | some v => simp [State.emit, hv, store_low_byte, CH_AB]

/-- C16: for every channel X, `write_nvs_data(X)` followed by a restart and
`read_nvs_data`, the store opening both times, leaves `current_channel = X`;
when the store cannot be opened or holds no `curr_channel` key,
`read_nvs_data` leaves `current_channel = CH_AB`, the value 2. -/
theorem nvs_round_trip (X : Channel) (st : State) :
    (read_nvs_data (restart (write_nvs_data st X.val true)) true).current_channel = X.val ∧
    (∀ st2 : State, (read_nvs_data st2 false).current_channel = CH_AB) ∧
    (∀ (st2 : State) (ok : Bool), st2.nvs_curr_channel = none →
      (read_nvs_data st2 ok).current_channel = CH_AB) ∧
    CH_AB = 2 := by
  refine ⟨?_, ?_, ?_, rfl⟩
  · rw [read_nvs_data_current_channel]
    cases X <;> simp [restart, write_nvs_data, State.emit, Channel.val, CH_A, CH_B, CH_AB]
  · intro st2
    rw [read_nvs_data_current_channel]
    simp
  · intro st2 ok h
    rw [read_nvs_data_current_channel, h]
    simp

/-- C17, counterexample: with the value 5 stored under `curr_channel`,
`read_nvs_data` leaves `current_channel = 5`, which is none of the three
enumerated channels and not the default. -/
theorem read_nvs_data_corrupt_value :
    (read_nvs_data (restart (init_state CH_AB (some 5))) true).current_channel = 5 ∧
    ¬ ((read_nvs_data (restart (init_state CH_AB (some 5))) true).current_channel = CH_A ∨
       (read_nvs_data (restart (init_state CH_AB (some 5))) true).current_channel = CH_B ∨
       (read_nvs_data (restart (init_state CH_AB (some 5))) true).current_channel = CH_AB) := by
  decide

/-- C17, amended: `read_nvs_data` leaves `current_channel` at the default AB
when the store does not open or holds no key, and at the stored channel when
the stored value is 0, 1 or 2; any other stored 8-bit value is taken over
without validation, as the low byte of `current_channel`, so that
`current_channel` is then none of the three enumerated channels. -/
theorem read_nvs_data_unvalidated (st : State) (ok : Bool) :
    (ok = false ∨ st.nvs_curr_channel = none →
      (read_nvs_data st ok).current_channel = CH_AB) ∧
    (∀ c : Channel, ok = true → st.nvs_curr_channel = some c.val →
      (read_nvs_data st ok).current_channel = c.val) ∧
    (∀ v : Int, ok = true → st.nvs_curr_channel = some v → -128 ≤ v → v ≤ 127 →
      v ≠ 0 → v ≠ 1 → v ≠ 2 →
      (read_nvs_data st ok).current_channel = v % 256 ∧
      ¬ channel_valid (read_nvs_data st ok)) := by
  refine ⟨?_, ?_, ?_⟩
  · rintro (h | h)
    · rw [read_nvs_data_current_channel, h]
      simp
    · rw [read_nvs_data_current_channel, h]
      simp
  · intro c hok hv
    rw [read_nvs_data_current_channel, hok, hv]
    cases c <;> simp [Channel.val, CH_A, CH_B, CH_AB]
  · intro v hok hv h1 h2 h3 h4 h5
    have e : (read_nvs_data st ok).current_channel = v % 256 := by
      rw [read_nvs_data_current_channel, hok, hv]
      simp
    refine ⟨e, ?_⟩
    unfold channel_valid
    rw [e]
    simp only [CH_A, CH_B, CH_AB]
    omega

end DualLight
